import Mathlib

/-!
Shallow embedding of `hymm_sp/gradio/api_server.py` (Hunyuan-GameCraft-1.0):
a Flask coordinator that hands generation jobs to an out-of-process worker
through filesystem artifacts (a cursor state file, a trigger file, and
per-index result files) and blocks, polling, until the worker's result
artifact appears or a wall-clock ceiling is reached.

The embedding models:
  * JSON values (`JValue`) as needed by the handler: object field lookup
    (Python `dict.get` / `in`), truthiness (Python `if custom_params:`);
  * the shared directory as an explicit state `FS` (cursor file content,
    trigger file content, result files as an association list);
  * the environment (`Env`): at which poll tick, if any, the worker delivers
    the result artifact and with what content, and whether best-effort
    `os.remove` cleanup calls succeed;
  * the request handler `generate_next` split as the source is: the
    pre-publish phase (lines 64-98, `prepare`), the trigger publish plus the
    unconditional `time.sleep(100)` (lines 100-112), and the polling loop
    with its success / worker-error / corrupt / timeout branches
    (lines 114-166, `poll_loop` and `consumeResult`).

Time is discretized into poll ticks of `CHECK_INTERVAL` seconds; the loop
performs `MAX_WAIT_TIME / CHECK_INTERVAL` existence checks, matching the
`while time.time() - start_time < MAX_WAIT_TIME` loop with a
`time.sleep(CHECK_INTERVAL)` per absent tick.  The `Outcome` record exposes,
besides the HTTP status, response body and final filesystem state, some
observation fields (`blockedSeconds`, `cursorReads`, `parseAttempts`,
`chosenIndex`, `published`) that record what the handler did; they do not
influence the computation.
-/

namespace ApiServer

/-- JSON values, as produced by `json.load` / sent to `jsonify`. -/
inductive JValue where
  | null
  | bool (b : Bool)
  | num (n : Int)
  | str (s : String)
  | arr (xs : List JValue)
  | obj (fields : List (String × JValue))

/-- Python `dict.get k` on a decoded JSON object (association-list lookup). -/
def jlookup (k : String) : List (String × JValue) → Option JValue
  | [] => none
  | (k', v) :: rest => if k' = k then some v else jlookup k rest

/-- Python truthiness of a decoded JSON value (`if custom_params:`):
`None`, `False`, `0`, `""`, `[]` and `{}` are falsy, everything else truthy. -/
def truthy : JValue → Bool
  | .null => false
  | .bool b => b
  | .num n => n != 0
  | .str s => s != ""
  | .arr xs => !xs.isEmpty
  | .obj fields => !fields.isEmpty

/-- Truthiness of `request_data.get("custom_params")`: absent key gives
Python `None`, which is falsy. -/
def truthyOpt : Option JValue → Bool
  | none => false
  | some v => truthy v

/-- Python `k in v` for a decoded JSON value `v` (the `"error" in result`
test, line 139).  On a dict it is key membership, on a list it is element
equality against the string `k`, on a string it is substring containment;
on `None`, booleans and numbers it raises `TypeError`, modelled as `none`. -/
def pyContains (k : String) : JValue → Option Bool
  | .obj fields => some (fields.any (fun p => p.1 == k))
  | .arr xs => some (xs.any (fun w => match w with | .str s => s == k | _ => false))
  | .str s => some (decide (2 ≤ (s.splitOn k).length))
  | .null => none
  | .bool _ => none
  | .num _ => none

/-- Content of an on-disk artifact as the coordinator's `json.load` sees it:
either it parses to a JSON value or the parse raises (corrupt file). -/
inductive FileData where
  | json (v : JValue)
  | corrupt

/-- The shared `./gradio_results` store: the cursor state file's raw text
(`none` when missing), the trigger file's content (`none` when absent), and
the result files keyed by file name. -/
structure FS where
  stateFile : Option String
  trigger : Option JValue
  resultFiles : List (String × FileData)

/-- Result-file lookup (`os.path.exists` + read), by file name. -/
def lookupFile (k : String) : List (String × FileData) → Option FileData
  | [] => none
  | (k', d) :: rest => if k' = k then some d else lookupFile k rest

/-- Model of `os.remove` on a result file, by file name. -/
def removeFile (k : String) (l : List (String × FileData)) : List (String × FileData) :=
  l.filter (fun p => p.1 != k)

/-- The worker writing a result file (a fresh file replaces any stale one). -/
def insertFile (k : String) (d : FileData) (l : List (String × FileData)) :
    List (String × FileData) :=
  (k, d) :: removeFile k l

/-- Name of the result artifact: `result_<index>.json`, or `result_custom.json` for the sentinel -1
(lines 115-119). -/
def resultFileName (idx : Int) : String :=
  if idx = -1 then "result_custom.json" else "result_" ++ toString idx ++ ".json"

/-- Whitespace characters removed by Python `str.strip`. -/
def pyIsSpace (c : Char) : Bool :=
  c == ' ' || c == '\t' || c == '\n' || c == '\r' || c == '\x0b' || c == '\x0c'

def dropSpaces : List Char → List Char
  | [] => []
  | c :: cs => if pyIsSpace c then dropSpaces cs else c :: cs

/-- Python `str.strip`: drop whitespace from both ends. -/
def pyStrip (cs : List Char) : List Char :=
  ((dropSpaces cs).reverse |> dropSpaces).reverse

def digitsToNat : List Char → Nat → Option Nat
  | [], acc => some acc
  | c :: cs, acc =>
    if c.isDigit then digitsToNat cs (acc * 10 + (c.toNat - 48)) else none

/-- Decimal integer text: an optional sign followed by at least one digit. -/
def pyParseIntChars : List Char → Option Int
  | [] => none
  | '-' :: cs => if cs.isEmpty then none else (digitsToNat cs 0).map (fun n => -(n : Int))
  | '+' :: cs => if cs.isEmpty then none else (digitsToNat cs 0).map (fun n => (n : Int))
  | cs => (digitsToNat cs 0).map (fun n => (n : Int))

/-- Model of Python `int(s.strip())` (line 48): `none` when the text does
not parse as an integer (`ValueError`). -/
def pyParseInt (s : String) : Option Int :=
  pyParseIntChars (pyStrip s.data)

/-- Source `get_current_index` (lines 44-50): read the cursor from the state file,
defaulting to 0 when the file is missing (`FileNotFoundError`) or its
content unparsable (`ValueError`). -/
def get_current_index (stateFile : Option String) : Int :=
  match stateFile with
  | none => 0
  | some s => (pyParseInt s).getD 0

/-- Source `update_current_index` (lines 52-59): overwrite the state file with the
decimal text of the new index. -/
def update_current_index (new_index : Int) (fs : FS) : FS :=
  { fs with stateFile := some (toString new_index) }

/-- Source `get_total_samples` (lines 30-36): hardcoded total number of samples. -/
def get_total_samples : Int := 1000

/-- Constant `MAX_WAIT_TIME = 30000` (line 18): maximum seconds to wait for results. -/
def MAX_WAIT_TIME : Nat := 30000

/-- Constant `CHECK_INTERVAL = 1` (line 19): seconds between result-file checks. -/
def CHECK_INTERVAL : Nat := 1

/-- Number of existence checks the `while time.time() - start_time <
MAX_WAIT_TIME` loop performs, one per `CHECK_INTERVAL`-second tick. -/
def maxChecks : Nat := MAX_WAIT_TIME / CHECK_INTERVAL

/-- Source `required_fields = []` (line 75): the configurable set of required
custom fields, currently empty. -/
def required_fields : List String := []

/-- The environment of one request: `arrival` says at which poll tick the
worker delivers the result artifact and with what content (`none`: never),
and the two flags say whether the best-effort `os.remove` calls (corrupt
result file, line 149; stale trigger file, line 161) succeed. -/
structure Env where
  arrival : Option (Nat × FileData)
  removeOk : Bool
  triggerRemoveOk : Bool

/-- Modelled from the spec: the gradio worker process (part of this
repository but not under `src/`, which holds only `api_server.py`) watches
for the trigger artifact, consumes (removes) it when it picks the job up,
performs the job, and writes the result artifact for the triggered index;
that the worker removes the trigger on pickup is what the timeout branch's
"if it still exists (it means the worker never picked it up)" relies on.
At its arrival tick the worker has removed the trigger and writes the
result file; at every other tick it does nothing. -/
def applyWorker (env : Env) (idx : Int) (t : Nat) (fs : FS) : FS :=
  match env.arrival with
  | some (t0, d) =>
    if t0 = t then
      { fs with trigger := none,
                resultFiles := insertFile (resultFileName idx) d fs.resultFiles }
    else fs
  | none => fs

/-- Outcome of one iteration of the result-consumption branch
(lines 123-152), without the sleep bookkeeping. -/
structure ConsumeOut where
  status : Nat
  body : JValue
  fs : FS
  parses : Nat

/-- Body of the internal-error response `{"error": f"Error processing
result: {e}"}` (line 152); the Python text carries the exception detail,
modelled here as fixed text. -/
def processing_error_body : JValue :=
  .obj [("error", .str "Error processing result")]

/-- Body of the timeout response (line 166). -/
def timeout_body : JValue :=
  .obj [("error", .str "Timeout waiting for video generation")]

/-- Lines 123-152: the result file exists.  Parse it; on success remove it,
advance the cursor when in sequential mode (`current_index != -1`), then
return the payload with 500 if it carries an `"error"` member and 200
otherwise (a `TypeError` from the membership test falls into the same
`except` clause, after the removal and cursor advance already happened).
On a parse failure, best-effort remove the corrupt file and return the
internal-error response.  `parses` counts parse attempts. -/
def consumeResult (idx : Int) (removeOk : Bool) (d : FileData) (fs : FS) : ConsumeOut :=
  match d with
  | .json result =>
    let fs1 := { fs with resultFiles := removeFile (resultFileName idx) fs.resultFiles }
    let fs2 := if idx = -1 then fs1 else update_current_index (idx + 1) fs1
    match pyContains "error" result with
    | some true => ⟨500, result, fs2, 1⟩
    | some false => ⟨200, result, fs2, 1⟩
    | none => ⟨500, processing_error_body, fs2, 1⟩
  | .corrupt =>
    let fs1 :=
      if removeOk then
        { fs with resultFiles := removeFile (resultFileName idx) fs.resultFiles }
      else fs
    ⟨500, processing_error_body, fs1, 1⟩

/-- Outcome of the whole polling phase: HTTP status, response body, final
store state, seconds slept inside the loop, and parse attempts. -/
structure PollOut where
  status : Nat
  body : JValue
  fs : FS
  slept : Nat
  parses : Nat

def mkPoll (c : ConsumeOut) (slept : Nat) : PollOut :=
  ⟨c.status, c.body, c.fs, slept, c.parses⟩

def addSlept (r : PollOut) (k : Nat) : PollOut :=
  ⟨r.status, r.body, r.fs, r.slept + k, r.parses⟩

/-- Lines 159-164: on timeout, best-effort removal of the trigger file if
it still exists (a removal failure is logged, not propagated). -/
def timeoutCleanup (env : Env) (fs : FS) : FS :=
  if fs.trigger.isSome then
    if env.triggerRemoveOk then { fs with trigger := none } else fs
  else fs

/-- Lines 121-166: the bounded polling loop.  `fuel` is the number of
existence checks left, `t` the current tick.  Each tick first lets the
worker act, then checks for the result file: if present, consume it
(lines 123-152); if absent, sleep `CHECK_INTERVAL` and retry.  When the
wall-clock ceiling is exhausted, remove the stale trigger best-effort and
return the timeout response (lines 156-166). -/
def poll_loop (env : Env) (idx : Int) : Nat → Nat → FS → PollOut
  | 0, _, fs => ⟨500, timeout_body, timeoutCleanup env fs, 0, 0⟩
  | fuel + 1, t, fs =>
    let fs1 := applyWorker env idx t fs
    match lookupFile (resultFileName idx) fs1.resultFiles with
    | some d => mkPoll (consumeResult idx env.removeOk d fs1) 0
    | none => addSlept (poll_loop env idx fuel (t + 1) fs1) CHECK_INTERVAL

/-- Pre-publish phase result: either an early rejection (status and body,
lines 78 and 95) or the chosen index and trigger descriptor to publish.
`cursorReads` records how many times `get_current_index` was called. -/
inductive Prepared where
  | reject (status : Nat) (body : JValue) (cursorReads : Nat)
  | publish (idx : Int) (trigger_data : JValue) (cursorReads : Nat)

/-- Lines 70-87: custom-parameter path.  Validate the (currently empty)
required-field set, then use the sentinel index -1 and a trigger descriptor
carrying the custom parameters. -/
def customPrepare (v : JValue) : Prepared :=
  let missing_fields := required_fields.filter (fun f => !(pyContains f v == some true))
  if missing_fields.isEmpty then
    .publish (-1) (.obj [("index", .num (-1)), ("custom_params", v)]) 0
  else
    .reject 400
      (.obj [("error", .str ("Missing required fields: " ++ toString missing_fields))]) 0

/-- Lines 89-98: sequential path.  Read the cursor; reject with 400 when it
has reached the total-sample bound, else publish a trigger for it. -/
def sequentialPrepare (fs : FS) : Prepared :=
  let current_index := get_current_index fs.stateFile
  if current_index ≥ get_total_samples then
    .reject 400
      (.obj [("error", .str "All samples generated"), ("index", .num current_index)]) 1
  else
    .publish current_index (.obj [("index", .num current_index)]) 1

/-- Lines 64-98: dispatch on `request_data.get("custom_params")` with
Python truthiness (`if custom_params:`), so an absent key, an empty mapping
or any other falsy value takes the sequential path. -/
def prepare (body : List (String × JValue)) (fs : FS) : Prepared :=
  match jlookup "custom_params" body with
  | some v => if truthy v then customPrepare v else sequentialPrepare fs
  | none => sequentialPrepare fs

/-- Everything one request did: HTTP status, response body, final store
state, seconds the handler blocked after publishing (the unconditional
`time.sleep(100)` of line 106 plus the loop's sleeps), how many times the
cursor was read, how many result-parse attempts were made, which index the
request targeted and which trigger descriptor it published (`none` when it
was rejected before publishing). -/
structure Outcome where
  status : Nat
  body : JValue
  fs : FS
  blockedSeconds : Nat
  cursorReads : Nat
  parseAttempts : Nat
  chosenIndex : Option Int
  published : Option JValue

/-- Source `generate_next` (lines 61-166): the `POST /generate_next` handler.
The pre-publish phase may reject (400) without touching the store.
Otherwise the trigger descriptor is published to the trigger path via
write-temp-then-`os.replace`, the handler sleeps 100 seconds
(`time.sleep(100)`, line 106), and the polling loop runs. -/
def generate_next (env : Env) (body : List (String × JValue)) (fs : FS) : Outcome :=
  match prepare body fs with
  | .reject st b reads => ⟨st, b, fs, 0, reads, 0, none, none⟩
  | .publish idx trigger_data reads =>
    let r := poll_loop env idx maxChecks 0 { fs with trigger := some trigger_data }
    ⟨r.status, r.body, r.fs, 100 + r.slept, reads, r.parses, some idx, some trigger_data⟩

end ApiServer

namespace ApiServer

/-! ### Basic lemmas about the store operations -/

theorem lookupFile_insert_self (k : String) (d : FileData) (l : List (String × FileData)) :
    lookupFile k (insertFile k d l) = some d := by
  simp [insertFile, lookupFile]

theorem lookupFile_removeFile_self (k : String) (l : List (String × FileData)) :
    lookupFile k (removeFile k l) = none := by
  induction l with
  | nil => rfl
  | cons p rest ih =>
    by_cases h : p.1 = k
    · simpa [removeFile, List.filter_cons, h] using ih
    · have hb : (p.1 != k) = true := by simpa [bne] using h
      simpa [removeFile, List.filter_cons, hb, lookupFile, h] using ih

theorem addSlept_mkPoll (c : ConsumeOut) (s k : Nat) :
    addSlept (mkPoll c s) k = mkPoll c (s + k) := rfl

/-! ### Reduction lemmas for the pre-publish phase -/

theorem prepare_sequential (body : List (String × JValue)) (fs : FS)
    (hmode : truthyOpt (jlookup "custom_params" body) = false) :
    prepare body fs = sequentialPrepare fs := by
  unfold prepare
  cases h : jlookup "custom_params" body with
  | none => rfl
  | some v =>
    have : truthy v = false := by simpa [truthyOpt, h] using hmode
    simp [this]

theorem sequentialPrepare_publish (fs : FS) (i : Int)
    (hcur : get_current_index fs.stateFile = i) (hbound : i < get_total_samples) :
    sequentialPrepare fs = .publish i (.obj [("index", .num i)]) 1 := by
  unfold sequentialPrepare
  rw [hcur]
  simp [not_le.mpr hbound]

theorem sequentialPrepare_reject (fs : FS) (i : Int)
    (hcur : get_current_index fs.stateFile = i) (hbound : get_total_samples ≤ i) :
    sequentialPrepare fs =
      .reject 400 (.obj [("error", .str "All samples generated"), ("index", .num i)]) 1 := by
  unfold sequentialPrepare
  rw [hcur]
  simp [hbound]

theorem prepare_custom (body : List (String × JValue)) (fs : FS) (v : JValue)
    (hv : jlookup "custom_params" body = some v) (ht : truthy v = true) :
    prepare body fs = .publish (-1) (.obj [("index", .num (-1)), ("custom_params", v)]) 0 := by
  unfold prepare
  rw [hv]
  simp [ht, customPrepare, required_fields]

/-! ### Reduction lemmas for the handler around the polling phase -/

theorem generate_next_reject (env : Env) (body : List (String × JValue)) (fs : FS)
    (st : Nat) (b : JValue) (reads : Nat)
    (hprep : prepare body fs = .reject st b reads) :
    generate_next env body fs = ⟨st, b, fs, 0, reads, 0, none, none⟩ := by
  simp [generate_next, hprep]

theorem generate_next_publish (env : Env) (body : List (String × JValue)) (fs : FS)
    (idx : Int) (td : JValue) (reads : Nat)
    (hprep : prepare body fs = .publish idx td reads) :
    generate_next env body fs =
      ⟨(poll_loop env idx maxChecks 0 { fs with trigger := some td }).status,
       (poll_loop env idx maxChecks 0 { fs with trigger := some td }).body,
       (poll_loop env idx maxChecks 0 { fs with trigger := some td }).fs,
       100 + (poll_loop env idx maxChecks 0 { fs with trigger := some td }).slept,
       reads,
       (poll_loop env idx maxChecks 0 { fs with trigger := some td }).parses,
       some idx, some td⟩ := by
  simp [generate_next, hprep]

/-! ### The polling loop: arrival before the ceiling, and no arrival in time -/

theorem poll_loop_found (env : Env) (idx : Int) (t0 : Nat) (d : FileData)
    (harr : env.arrival = some (t0, d)) :
    ∀ (fuel t : Nat) (fs : FS),
      lookupFile (resultFileName idx) fs.resultFiles = none →
      t ≤ t0 → t0 < t + fuel →
      poll_loop env idx fuel t fs =
        mkPoll
          (consumeResult idx env.removeOk d
            { fs with trigger := none,
                      resultFiles := insertFile (resultFileName idx) d fs.resultFiles })
          ((t0 - t) * CHECK_INTERVAL)
  | 0, t, fs, _, hle, hlt => by omega
  | fuel + 1, t, fs, hno, hle, hlt => by
    by_cases ht : t0 = t
    · subst ht
      have hwk : applyWorker env idx t0 fs =
          { fs with trigger := none,
                    resultFiles := insertFile (resultFileName idx) d fs.resultFiles } := by
        simp [applyWorker, harr]
      simp [poll_loop, hwk, lookupFile_insert_self]
    · have htlt : t < t0 := lt_of_le_of_ne hle (fun h => ht h.symm)
      have hfs1 : applyWorker env idx t fs = fs := by
        simp [applyWorker, harr, ht]
      have h1 : t + 1 ≤ t0 := by omega
      have h2 : t0 < (t + 1) + fuel := by omega
      have harith : (t0 - (t + 1)) * CHECK_INTERVAL + CHECK_INTERVAL
          = (t0 - t) * CHECK_INTERVAL := by
        simp only [CHECK_INTERVAL, Nat.mul_one]
        omega
      simp only [poll_loop, hfs1, hno,
        poll_loop_found env idx t0 d harr fuel (t + 1) fs hno h1 h2,
        addSlept_mkPoll, harith]

theorem poll_loop_late (env : Env) (idx : Int) :
    ∀ (fuel t : Nat) (fs : FS),
      lookupFile (resultFileName idx) fs.resultFiles = none →
      (∀ p : Nat × FileData, env.arrival = some p → t + fuel ≤ p.1) →
      poll_loop env idx fuel t fs =
        ⟨500, timeout_body, timeoutCleanup env fs, fuel * CHECK_INTERVAL, 0⟩
  | 0, t, fs, _, _ => by
    simp [poll_loop]
  | fuel + 1, t, fs, hno, hlate => by
    have hfs1 : applyWorker env idx t fs = fs := by
      cases harr : env.arrival with
      | none => simp [applyWorker, harr]
      | some p =>
        have hp := hlate p harr
        cases p with
        | mk t0 d =>
          have hne : t0 ≠ t := by simp at hp; omega
          simp [applyWorker, harr, hne]
    have hrec := poll_loop_late env idx fuel (t + 1) fs hno
      (fun p hp => by have := hlate p hp; omega)
    simp only [poll_loop, hfs1, hno, hrec, addSlept, Nat.succ_mul]

end ApiServer

namespace ApiServer

/-! ### Frame lemmas: what never touches the cursor state file -/

theorem timeoutCleanup_stateFile (env : Env) (fs : FS) :
    (timeoutCleanup env fs).stateFile = fs.stateFile := by
  unfold timeoutCleanup
  by_cases h1 : fs.trigger.isSome <;> by_cases h2 : env.triggerRemoveOk <;> simp [h1, h2]

theorem applyWorker_stateFile (env : Env) (idx : Int) (t : Nat) (fs : FS) :
    (applyWorker env idx t fs).stateFile = fs.stateFile := by
  unfold applyWorker
  cases env.arrival with
  | none => rfl
  | some p =>
    cases p with
    | mk t0 d => by_cases h : t0 = t <;> simp [h]

theorem consumeResult_stateFile_custom (ok : Bool) (d : FileData) (fs : FS) :
    (consumeResult (-1) ok d fs).fs.stateFile = fs.stateFile := by
  cases d with
  | json v =>
    rcases h : pyContains "error" v with _ | b
    · simp [consumeResult, h]
    · cases b <;> simp [consumeResult, h]
  | corrupt => cases ok <;> simp [consumeResult]

theorem consumeResult_stateFile_corrupt (idx : Int) (ok : Bool) (fs : FS) :
    (consumeResult idx ok FileData.corrupt fs).fs.stateFile = fs.stateFile := by
  cases ok <;> simp [consumeResult]

theorem poll_loop_stateFile_custom (env : Env) :
    ∀ (fuel t : Nat) (fs : FS),
      (poll_loop env (-1) fuel t fs).fs.stateFile = fs.stateFile
  | 0, t, fs => by
    simp [poll_loop, timeoutCleanup_stateFile]
  | fuel + 1, t, fs => by
    simp only [poll_loop]
    cases hl : lookupFile (resultFileName (-1)) (applyWorker env (-1) t fs).resultFiles with
    | some d =>
      show (mkPoll (consumeResult (-1) env.removeOk d (applyWorker env (-1) t fs)) 0).fs.stateFile
        = fs.stateFile
      rw [show (mkPoll (consumeResult (-1) env.removeOk d (applyWorker env (-1) t fs)) 0).fs
            = (consumeResult (-1) env.removeOk d (applyWorker env (-1) t fs)).fs from rfl,
          consumeResult_stateFile_custom, applyWorker_stateFile]
    | none =>
      show (addSlept (poll_loop env (-1) fuel (t + 1) (applyWorker env (-1) t fs))
              CHECK_INTERVAL).fs.stateFile = fs.stateFile
      rw [show (addSlept (poll_loop env (-1) fuel (t + 1) (applyWorker env (-1) t fs))
            CHECK_INTERVAL).fs
            = (poll_loop env (-1) fuel (t + 1) (applyWorker env (-1) t fs)).fs from rfl,
          poll_loop_stateFile_custom env fuel (t + 1) _, applyWorker_stateFile]

/-! ### Composition: a sequential request whose result arrives in time -/

theorem generate_next_seq_found (env : Env) (body : List (String × JValue)) (fs : FS)
    (i : Int) (d : FileData) (t0 : Nat)
    (hmode : truthyOpt (jlookup "custom_params" body) = false)
    (hcur : get_current_index fs.stateFile = i)
    (hbound : i < get_total_samples)
    (harr : env.arrival = some (t0, d))
    (ht0 : t0 < maxChecks)
    (hno : lookupFile (resultFileName i) fs.resultFiles = none) :
    generate_next env body fs =
      ⟨(consumeResult i env.removeOk d
          ⟨fs.stateFile, none, insertFile (resultFileName i) d fs.resultFiles⟩).status,
       (consumeResult i env.removeOk d
          ⟨fs.stateFile, none, insertFile (resultFileName i) d fs.resultFiles⟩).body,
       (consumeResult i env.removeOk d
          ⟨fs.stateFile, none, insertFile (resultFileName i) d fs.resultFiles⟩).fs,
       100 + t0 * CHECK_INTERVAL, 1,
       (consumeResult i env.removeOk d
          ⟨fs.stateFile, none, insertFile (resultFileName i) d fs.resultFiles⟩).parses,
       some i, some (.obj [("index", .num i)])⟩ := by
  rw [generate_next_publish env body fs i (.obj [("index", .num i)]) 1
        (by rw [prepare_sequential body fs hmode, sequentialPrepare_publish fs i hcur hbound]),
      poll_loop_found env i t0 d harr maxChecks 0
        { fs with trigger := some (.obj [("index", .num i)]) } hno (Nat.zero_le t0)
        (by omega)]
  rfl

/-! ### Composition: a sequential request whose result never arrives in time -/

theorem generate_next_seq_timeout (env : Env) (body : List (String × JValue)) (fs : FS)
    (i : Int)
    (hmode : truthyOpt (jlookup "custom_params" body) = false)
    (hcur : get_current_index fs.stateFile = i)
    (hbound : i < get_total_samples)
    (hlate : ∀ p : Nat × FileData, env.arrival = some p → maxChecks ≤ p.1)
    (hno : lookupFile (resultFileName i) fs.resultFiles = none) :
    generate_next env body fs =
      ⟨500, timeout_body,
       timeoutCleanup env { fs with trigger := some (.obj [("index", .num i)]) },
       100 + maxChecks * CHECK_INTERVAL, 1, 0, some i,
       some (.obj [("index", .num i)])⟩ := by
  rw [generate_next_publish env body fs i (.obj [("index", .num i)]) 1
        (by rw [prepare_sequential body fs hmode, sequentialPrepare_publish fs i hcur hbound]),
      poll_loop_late env i maxChecks 0
        { fs with trigger := some (.obj [("index", .num i)]) } hno (fun p hp => by
          have := hlate p hp
          omega)]

end ApiServer

namespace ApiServer

/-- C8: for every state of the backing cursor artifact, the cursor read
operation returns an integer and never raises to its caller (it is a total
function of the artifact state): it returns the stored integer when the
artifact holds one, and returns 0 when the artifact is missing or
unparsable. -/
theorem C8_cursor_read_defensive (st : Option String) :
    (st = none → get_current_index st = 0) ∧
    (∀ s : String, st = some s → ∀ n : Int, pyParseInt s = some n →
      get_current_index st = n) ∧
    (∀ s : String, st = some s → pyParseInt s = none → get_current_index st = 0) := by
  refine ⟨fun h => by simp [h, get_current_index], ?_, ?_⟩
  · intro s hs n hn
    simp [hs, get_current_index, hn]
  · intro s hs hn
    simp [hs, get_current_index, hn]

theorem C8_cursor_read_defensive_witness :
    get_current_index none = 0 ∧
    get_current_index (some " 42 ") = 42 ∧
    get_current_index (some "abc") = 0 :=
  ⟨(C8_cursor_read_defensive none).1 rfl,
   (C8_cursor_read_defensive (some " 42 ")).2.1 " 42 " rfl 42 (by decide),
   (C8_cursor_read_defensive (some "abc")).2.2 "abc" rfl (by decide)⟩

/-- C6: for every sequential-mode request made when the persisted Cursor is
at or above the total-sample bound, the request returns exactly status 400
with body `{"error": "All samples generated", "index": cursor}`, the store
is untouched, no trigger is published and no artifact changes (the whole
outcome record, final store included, equals the early rejection). -/
theorem C6_bound_exhausted (env : Env) (body : List (String × JValue)) (fs : FS) (i : Int)
    (hmode : truthyOpt (jlookup "custom_params" body) = false)
    (hcur : get_current_index fs.stateFile = i)
    (hbound : get_total_samples ≤ i) :
    generate_next env body fs =
      ⟨400, .obj [("error", .str "All samples generated"), ("index", .num i)],
       fs, 0, 1, 0, none, none⟩ :=
  generate_next_reject env body fs _ _ _
    (by rw [prepare_sequential body fs hmode, sequentialPrepare_reject fs i hcur hbound])

theorem C6_bound_exhausted_witness :
    generate_next ⟨none, true, true⟩ [] ⟨some "1000", none, []⟩ =
      ⟨400, .obj [("error", .str "All samples generated"), ("index", .num 1000)],
       ⟨some "1000", none, []⟩, 0, 1, 0, none, none⟩ :=
  C6_bound_exhausted ⟨none, true, true⟩ [] ⟨some "1000", none, []⟩ 1000
    rfl (by decide) (by decide)

/-- C3, counterexample to the claim as stated: a request body that contains
a `custom_params` field holding the empty mapping is NOT handled in custom
mode — Python truthiness sends it down the sequential path, the
total-sample bound check IS performed (here it rejects with 400 because the
cursor equals the bound), the index is not forced to -1, and no trigger is
published. -/
theorem C3_empty_mapping_sequential :
    (generate_next ⟨none, true, true⟩ [("custom_params", JValue.obj [])]
        ⟨some "1000", none, []⟩).status = 400 ∧
    (generate_next ⟨none, true, true⟩ [("custom_params", JValue.obj [])]
        ⟨some "1000", none, []⟩).body =
      JValue.obj [("error", .str "All samples generated"), ("index", .num 1000)] ∧
    (generate_next ⟨none, true, true⟩ [("custom_params", JValue.obj [])]
        ⟨some "1000", none, []⟩).chosenIndex = none ∧
    (generate_next ⟨none, true, true⟩ [("custom_params", JValue.obj [])]
        ⟨some "1000", none, []⟩).published = none := by
  have h := C6_bound_exhausted ⟨none, true, true⟩ [("custom_params", JValue.obj [])]
    ⟨some "1000", none, []⟩ 1000 rfl (by decide) (by decide)
  rw [h]
  exact ⟨rfl, rfl, rfl, rfl⟩

/-- C3, amended: for every request whose JSON body contains a truthy
`custom_params` value (in particular any non-empty mapping — the configured
required-field set is empty), the submission proceeds in custom mode for
every store state (so no total-sample bound check is performed and the
cursor is never read), the job index is forced to -1, and the published
trigger descriptor carries the custom parameters. -/
theorem C3_custom_mode_truthy (env : Env) (body : List (String × JValue)) (fs : FS)
    (v : JValue)
    (hv : jlookup "custom_params" body = some v)
    (ht : truthy v = true) :
    (generate_next env body fs).chosenIndex = some (-1) ∧
    (generate_next env body fs).published =
      some (.obj [("index", .num (-1)), ("custom_params", v)]) ∧
    (generate_next env body fs).cursorReads = 0 := by
  rw [generate_next_publish env body fs (-1)
        (.obj [("index", .num (-1)), ("custom_params", v)]) 0
        (prepare_custom body fs v hv ht)]
  exact ⟨rfl, rfl, rfl⟩

theorem C3_custom_mode_truthy_witness :
    (generate_next ⟨none, true, true⟩ [("custom_params", JValue.obj [("x", .num 1)])]
        ⟨some "1000", none, []⟩).chosenIndex = some (-1) ∧
    (generate_next ⟨none, true, true⟩ [("custom_params", JValue.obj [("x", .num 1)])]
        ⟨some "1000", none, []⟩).published =
      some (.obj [("index", .num (-1)),
                  ("custom_params", JValue.obj [("x", .num 1)])]) ∧
    (generate_next ⟨none, true, true⟩ [("custom_params", JValue.obj [("x", .num 1)])]
        ⟨some "1000", none, []⟩).cursorReads = 0 :=
  C3_custom_mode_truthy ⟨none, true, true⟩ [("custom_params", JValue.obj [("x", .num 1)])]
    ⟨some "1000", none, []⟩ (JValue.obj [("x", .num 1)]) rfl rfl

/-- C9: for every custom-mode request (truthy `custom_params`, index -1)
and every worker behavior — success, worker-reported error, corrupt result
or timeout — the persisted Cursor is neither read (`cursorReads = 0`) nor
mutated (the state file is bit-for-bit unchanged) at any point of the
request's handling. -/
theorem C9_custom_never_touches_cursor (env : Env) (body : List (String × JValue))
    (fs : FS) (v : JValue)
    (hv : jlookup "custom_params" body = some v)
    (ht : truthy v = true) :
    (generate_next env body fs).cursorReads = 0 ∧
    (generate_next env body fs).fs.stateFile = fs.stateFile := by
  rw [generate_next_publish env body fs (-1)
        (.obj [("index", .num (-1)), ("custom_params", v)]) 0
        (prepare_custom body fs v hv ht)]
  exact ⟨rfl, poll_loop_stateFile_custom env maxChecks 0 _⟩

theorem C9_custom_never_touches_cursor_witness :
    (generate_next ⟨some (0, .json (.obj [("error", .str "oom")])), true, true⟩
        [("custom_params", JValue.obj [("x", .num 1)])] ⟨some "7", none, []⟩).cursorReads
      = 0 ∧
    (generate_next ⟨some (0, .json (.obj [("error", .str "oom")])), true, true⟩
        [("custom_params", JValue.obj [("x", .num 1)])]
        ⟨some "7", none, []⟩).fs.stateFile = some "7" :=
  C9_custom_never_touches_cursor
    ⟨some (0, .json (.obj [("error", .str "oom")])), true, true⟩
    [("custom_params", JValue.obj [("x", .num 1)])] ⟨some "7", none, []⟩
    (JValue.obj [("x", .num 1)]) rfl rfl

end ApiServer

namespace ApiServer

/-- C1: for every sequential submission with persisted Cursor `i` below the
total-sample bound, if a parsable, error-free (object) result artifact for
index `i` appears during the wait loop, the request returns the worker's
payload with status 200, the cursor file is advanced to the text of `i+1`,
and both the i-th result artifact and the trigger artifact are gone at the
end of the request. -/
theorem C1_sequential_roundtrip (env : Env) (body : List (String × JValue)) (fs : FS)
    (i : Int) (v : JValue) (t0 : Nat)
    (hmode : truthyOpt (jlookup "custom_params" body) = false)
    (hcur : get_current_index fs.stateFile = i)
    (hi : 0 ≤ i)
    (hbound : i < get_total_samples)
    (harr : env.arrival = some (t0, FileData.json v))
    (ht0 : t0 < maxChecks)
    (herr : pyContains "error" v = some false)
    (hno : lookupFile (resultFileName i) fs.resultFiles = none) :
    (generate_next env body fs).status = 200 ∧
    (generate_next env body fs).body = v ∧
    (generate_next env body fs).fs.stateFile = some (toString (i + 1)) ∧
    lookupFile (resultFileName i) (generate_next env body fs).fs.resultFiles = none ∧
    (generate_next env body fs).fs.trigger = none := by
  rw [generate_next_seq_found env body fs i (FileData.json v) t0 hmode hcur hbound harr
        ht0 hno]
  have hne : ¬i = -1 := by omega
  simp [consumeResult, herr, hne, update_current_index, lookupFile_removeFile_self]

theorem C1_sequential_roundtrip_witness :
    (generate_next ⟨some (0, .json (.obj [("ok", .bool true)])), true, true⟩ []
        ⟨some "0", none, []⟩).status = 200 ∧
    (generate_next ⟨some (0, .json (.obj [("ok", .bool true)])), true, true⟩ []
        ⟨some "0", none, []⟩).body = JValue.obj [("ok", .bool true)] ∧
    (generate_next ⟨some (0, .json (.obj [("ok", .bool true)])), true, true⟩ []
        ⟨some "0", none, []⟩).fs.stateFile = some (toString ((0 : Int) + 1)) ∧
    lookupFile (resultFileName 0)
      (generate_next ⟨some (0, .json (.obj [("ok", .bool true)])), true, true⟩ []
        ⟨some "0", none, []⟩).fs.resultFiles = none ∧
    (generate_next ⟨some (0, .json (.obj [("ok", .bool true)])), true, true⟩ []
        ⟨some "0", none, []⟩).fs.trigger = none :=
  C1_sequential_roundtrip ⟨some (0, .json (.obj [("ok", .bool true)])), true, true⟩ []
    ⟨some "0", none, []⟩ 0 (JValue.obj [("ok", .bool true)]) 0
    rfl (by decide) (by decide) (by decide) rfl (by decide) rfl rfl

/-- C5: for every submission that publishes a trigger (sequential or
custom mode alike) and whose result artifact parses to a payload carrying
an `"error"` member, the request returns that payload unchanged with
status 500; in sequential mode (index different from -1) the cursor is
still advanced to `index+1` (the slot is considered consumed, not
retried), while in custom mode (index -1) the cursor file is unchanged. -/
theorem C5_worker_error_passthrough (env : Env) (body : List (String × JValue)) (fs : FS)
    (idx : Int) (td : JValue) (reads : Nat) (v : JValue) (t0 : Nat)
    (hprep : prepare body fs = .publish idx td reads)
    (harr : env.arrival = some (t0, FileData.json v))
    (ht0 : t0 < maxChecks)
    (herr : pyContains "error" v = some true)
    (hno : lookupFile (resultFileName idx) fs.resultFiles = none) :
    (generate_next env body fs).status = 500 ∧
    (generate_next env body fs).body = v ∧
    (idx ≠ -1 → (generate_next env body fs).fs.stateFile = some (toString (idx + 1))) ∧
    (idx = -1 → (generate_next env body fs).fs.stateFile = fs.stateFile) := by
  rw [generate_next_publish env body fs idx td reads hprep,
      poll_loop_found env idx t0 (FileData.json v) harr maxChecks 0
        { fs with trigger := some td } hno (Nat.zero_le t0) (by omega)]
  by_cases hne : idx = -1
  · subst hne
    simp [consumeResult, herr, mkPoll]
  · simp [consumeResult, herr, hne, mkPoll, update_current_index]

theorem C5_worker_error_passthrough_witness :
    ((generate_next ⟨some (0, .json (.obj [("error", .str "oom")])), true, true⟩
        [("custom_params", JValue.obj [("x", .num 1)])] ⟨some "7", none, []⟩).status
        = 500 ∧
     (generate_next ⟨some (0, .json (.obj [("error", .str "oom")])), true, true⟩
        [("custom_params", JValue.obj [("x", .num 1)])] ⟨some "7", none, []⟩).body
        = JValue.obj [("error", .str "oom")] ∧
     (generate_next ⟨some (0, .json (.obj [("error", .str "oom")])), true, true⟩
        [("custom_params", JValue.obj [("x", .num 1)])]
        ⟨some "7", none, []⟩).fs.stateFile = some "7") ∧
    ((generate_next ⟨some (2, .json (.obj [("error", .str "oom")])), true, true⟩ []
        ⟨some "0", none, []⟩).status = 500 ∧
     (generate_next ⟨some (2, .json (.obj [("error", .str "oom")])), true, true⟩ []
        ⟨some "0", none, []⟩).body = JValue.obj [("error", .str "oom")] ∧
     (generate_next ⟨some (2, .json (.obj [("error", .str "oom")])), true, true⟩ []
        ⟨some "0", none, []⟩).fs.stateFile = some (toString ((0 : Int) + 1))) := by
  have hc := C5_worker_error_passthrough
    ⟨some (0, .json (.obj [("error", .str "oom")])), true, true⟩
    [("custom_params", JValue.obj [("x", .num 1)])] ⟨some "7", none, []⟩
    (-1) (.obj [("index", .num (-1)), ("custom_params", JValue.obj [("x", .num 1)])]) 0
    (JValue.obj [("error", .str "oom")]) 0
    rfl rfl (by decide) rfl rfl
  have hs := C5_worker_error_passthrough
    ⟨some (2, .json (.obj [("error", .str "oom")])), true, true⟩
    [] ⟨some "0", none, []⟩
    0 (.obj [("index", .num 0)]) 1
    (JValue.obj [("error", .str "oom")]) 2
    rfl rfl (by decide) rfl rfl
  exact ⟨⟨hc.1, hc.2.1, hc.2.2.2 rfl⟩, ⟨hs.1, hs.2.1, hs.2.2.1 (by decide)⟩⟩

/-- C7: for every submission that publishes a trigger and whose result
artifact exists but cannot be parsed, the request returns status 500 with
the internal-error payload, exactly one parse attempt is made (parsing is
not retried on later poll ticks), and the corrupt artifact is deleted
best-effort: when the removal succeeds the artifact is gone, when it fails
the failure is not propagated (same 500 response either way). -/
theorem C7_corrupt_result (env : Env) (body : List (String × JValue)) (fs : FS)
    (idx : Int) (td : JValue) (reads : Nat) (t0 : Nat)
    (hprep : prepare body fs = .publish idx td reads)
    (harr : env.arrival = some (t0, FileData.corrupt))
    (ht0 : t0 < maxChecks)
    (hno : lookupFile (resultFileName idx) fs.resultFiles = none) :
    (generate_next env body fs).status = 500 ∧
    (generate_next env body fs).body = processing_error_body ∧
    (generate_next env body fs).parseAttempts = 1 ∧
    (env.removeOk = true →
      lookupFile (resultFileName idx) (generate_next env body fs).fs.resultFiles = none) ∧
    (env.removeOk = false →
      lookupFile (resultFileName idx) (generate_next env body fs).fs.resultFiles =
        some FileData.corrupt) := by
  rw [generate_next_publish env body fs idx td reads hprep,
      poll_loop_found env idx t0 FileData.corrupt harr maxChecks 0
        { fs with trigger := some td } hno (Nat.zero_le t0) (by omega)]
  cases hok : env.removeOk <;>
    simp [consumeResult, mkPoll, hok, lookupFile_removeFile_self, lookupFile_insert_self]

theorem C7_corrupt_result_witness :
    (generate_next ⟨some (0, .corrupt), true, true⟩ [] ⟨some "0", none, []⟩).status
      = 500 ∧
    (generate_next ⟨some (0, .corrupt), true, true⟩ [] ⟨some "0", none, []⟩).body
      = processing_error_body ∧
    (generate_next ⟨some (0, .corrupt), true, true⟩ []
        ⟨some "0", none, []⟩).parseAttempts = 1 ∧
    lookupFile (resultFileName 0)
      (generate_next ⟨some (0, .corrupt), true, true⟩ []
        ⟨some "0", none, []⟩).fs.resultFiles = none := by
  have h := C7_corrupt_result ⟨some (0, .corrupt), true, true⟩ [] ⟨some "0", none, []⟩
    0 (.obj [("index", .num 0)]) 1 0 rfl rfl (by decide) rfl
  exact ⟨h.1, h.2.1, h.2.2.1, h.2.2.2.1 rfl⟩

/-- C10: for every sequential-mode request whose result artifact exists but
fails to parse, the persisted Cursor is left unchanged, so the next
sequential request (under any environment) chooses the same index again. -/
theorem C10_corrupt_keeps_cursor (env : Env) (body : List (String × JValue)) (fs : FS)
    (i : Int) (t0 : Nat)
    (hmode : truthyOpt (jlookup "custom_params" body) = false)
    (hcur : get_current_index fs.stateFile = i)
    (hbound : i < get_total_samples)
    (harr : env.arrival = some (t0, FileData.corrupt))
    (ht0 : t0 < maxChecks)
    (hno : lookupFile (resultFileName i) fs.resultFiles = none) :
    (generate_next env body fs).fs.stateFile = fs.stateFile ∧
    ∀ env2 : Env,
      (generate_next env2 body (generate_next env body fs).fs).chosenIndex = some i := by
  have hmain := generate_next_seq_found env body fs i FileData.corrupt t0 hmode hcur
    hbound harr ht0 hno
  have hst : (generate_next env body fs).fs.stateFile = fs.stateFile := by
    rw [hmain]
    exact consumeResult_stateFile_corrupt i env.removeOk _
  refine ⟨hst, fun env2 => ?_⟩
  have hcur2 : get_current_index (generate_next env body fs).fs.stateFile = i := by
    rw [hst]
    exact hcur
  rw [generate_next_publish env2 body ((generate_next env body fs).fs) i
        (.obj [("index", .num i)]) 1
        (by rw [prepare_sequential _ _ hmode, sequentialPrepare_publish _ i hcur2 hbound])]

theorem C10_corrupt_keeps_cursor_witness :
    (generate_next ⟨some (1, .corrupt), false, true⟩ [] ⟨some "5", none, []⟩).fs.stateFile
      = some "5" ∧
    (generate_next ⟨none, true, true⟩ []
      (generate_next ⟨some (1, .corrupt), false, true⟩ []
        ⟨some "5", none, []⟩).fs).chosenIndex = some 5 := by
  have h := C10_corrupt_keeps_cursor ⟨some (1, .corrupt), false, true⟩ []
    ⟨some "5", none, []⟩ 5 1 rfl (by decide) (by decide) rfl (by decide) rfl
  exact ⟨h.1, h.2 ⟨none, true, true⟩⟩

/-- C2: for every sequential submission in which no result artifact appears
within the overall wait ceiling, the request returns status 500 with body
`{"error": "Timeout waiting for video generation"}`, the trigger artifact
is removed best-effort if it still exists, and the persisted Cursor is left
unchanged, so an immediately retried sequential request (under any
environment) reuses the same index. -/
theorem C2_timeout_leaves_cursor (env : Env) (body : List (String × JValue)) (fs : FS)
    (i : Int)
    (hmode : truthyOpt (jlookup "custom_params" body) = false)
    (hcur : get_current_index fs.stateFile = i)
    (hbound : i < get_total_samples)
    (hlate : ∀ p : Nat × FileData, env.arrival = some p → maxChecks ≤ p.1)
    (hno : lookupFile (resultFileName i) fs.resultFiles = none) :
    (generate_next env body fs).status = 500 ∧
    (generate_next env body fs).body = timeout_body ∧
    (generate_next env body fs).fs.stateFile = fs.stateFile ∧
    (env.triggerRemoveOk = true → (generate_next env body fs).fs.trigger = none) ∧
    ∀ env2 : Env,
      (generate_next env2 body (generate_next env body fs).fs).chosenIndex = some i := by
  have hmain := generate_next_seq_timeout env body fs i hmode hcur hbound hlate hno
  have hst : (generate_next env body fs).fs.stateFile = fs.stateFile := by
    rw [hmain]
    exact timeoutCleanup_stateFile env _
  refine ⟨by rw [hmain], by rw [hmain], hst, ?_, fun env2 => ?_⟩
  · intro htr
    rw [hmain]
    show (timeoutCleanup env
      { fs with trigger := some (.obj [("index", .num i)]) }).trigger = none
    simp [timeoutCleanup, htr]
  · have hcur2 : get_current_index (generate_next env body fs).fs.stateFile = i := by
      rw [hst]
      exact hcur
    rw [generate_next_publish env2 body ((generate_next env body fs).fs) i
          (.obj [("index", .num i)]) 1
          (by rw [prepare_sequential _ _ hmode, sequentialPrepare_publish _ i hcur2 hbound])]

theorem C2_timeout_leaves_cursor_witness :
    (generate_next ⟨none, true, true⟩ [] ⟨some "5", none, []⟩).status = 500 ∧
    (generate_next ⟨none, true, true⟩ [] ⟨some "5", none, []⟩).body = timeout_body ∧
    (generate_next ⟨none, true, true⟩ [] ⟨some "5", none, []⟩).fs.stateFile = some "5" ∧
    (generate_next ⟨none, true, true⟩ [] ⟨some "5", none, []⟩).fs.trigger = none ∧
    (generate_next ⟨none, false, false⟩ []
      (generate_next ⟨none, true, true⟩ [] ⟨some "5", none, []⟩).fs).chosenIndex
      = some 5 := by
  have h := C2_timeout_leaves_cursor ⟨none, true, true⟩ [] ⟨some "5", none, []⟩ 5
    rfl (by decide) (by decide) (fun p hp => nomatch hp) rfl
  exact ⟨h.1, h.2.1, h.2.2.1, h.2.2.2.1 rfl, h.2.2.2.2 ⟨none, false, false⟩⟩

/-- C4 is contradicted by the code: line 106 executes `time.sleep(100)`
unconditionally between publishing the trigger and entering the polling
loop.  Even when the result artifact is present at the very first poll
tick the handler blocks 100 seconds, and on a timeout it blocks
`MAX_WAIT_TIME + 100` seconds, exceeding the overall wait ceiling. -/
theorem C4_post_publish_sleep :
    (generate_next ⟨some (0, .json (.obj [("ok", .bool true)])), true, true⟩ []
        ⟨some "0", none, []⟩).blockedSeconds = 100 ∧
    MAX_WAIT_TIME <
      (generate_next ⟨none, true, true⟩ [] ⟨some "0", none, []⟩).blockedSeconds := by
  constructor
  · rw [generate_next_seq_found ⟨some (0, .json (.obj [("ok", .bool true)])), true, true⟩
        [] ⟨some "0", none, []⟩ 0 (.json (.obj [("ok", .bool true)])) 0
        rfl (by decide) (by decide) rfl (by decide) rfl]
    rfl
  · rw [generate_next_seq_timeout ⟨none, true, true⟩ [] ⟨some "0", none, []⟩ 0
          rfl (by decide) (by decide) (fun p hp => nomatch hp) rfl]
    decide

end ApiServer
